import Mathlib

/-!
Shallow embedding of `collector_scheduled.py` (traffic-data-collector).

The script reads one active region from `collection_config`, decides via an
interval gate whether it is due, loops over the region's road segments making
one Distance Matrix API call per segment, batch-writes the results and a query
log row in one transaction, then updates `last_queried_at` and commits.

Modelling choices:
- Times (`datetime.utcnow()` values) are rationals measured in seconds.
- An API response is either `malformed` (network error, timeout, bad JSON or
  missing keys whose access raises: every raised exception is caught by the
  bare `except` in `_query_distance_matrix` and yields `None`) or a parsed
  body carrying the top-level `status` string and the optional first element
  `rows[0].elements[0]`.  An element whose own `status` key is missing raises
  `KeyError`, which is caught, so it is folded into the `malformed` /
  missing-element cases; an element value carries its `status` string and the
  optional `duration.value`, `duration_in_traffic.value`, `distance.value`
  integers (each `None` when the key is absent, as produced by
  `element.get(k, {}).get("value")`).
- Python truthiness: the source guards `if duration and distance:` and picks
  `duration_in_traffic if duration_in_traffic else duration`, so an integer
  value of `0` behaves like a missing value.
- Database effects are events in a trace: a `write` buffers a pending row
  change and `commit` makes all pending writes durable at once (psycopg2
  autocommit is off; `conn.commit()` is the only commit point).
-/

/-- `rows[0].elements[0]` of the Distance Matrix JSON body: its `status`
string and the three optional numeric `value` fields. -/
structure Elem where
  status : String
  duration : Option Int
  duration_in_traffic : Option Int
  distance : Option Int
deriving DecidableEq, Repr

/-- The outcome of `requests.get(...).json()` as seen by the parser:
`malformed` covers network errors, timeouts and bodies whose key accesses
raise (all caught by the `except` clause); `body status elem` is a parsed
body with top-level `status`, where `elem = none` means `rows[0].elements[0]`
is absent (its access raises, again caught). -/
inductive ApiResponse where
  | malformed : ApiResponse
  | body : String → Option Elem → ApiResponse
deriving DecidableEq, Repr

/-- Python truthiness of an optional integer JSON value: `None` and `0` are
falsy, everything else is truthy. -/
def truthy : Option Int → Bool
  | none => false
  | some v => v ≠ 0

/-- The dictionary returned by `_query_distance_matrix` on success. -/
structure TrafficData where
  distance : Int
  freeflow_duration : Int
  current_duration : Int
deriving DecidableEq, Repr

/-- `ScheduledTrafficCollector._query_distance_matrix`, lines 167-231:
returns `None` on quota statuses, non-`OK` statuses, missing element, falsy
duration or distance, or any exception; otherwise extracts distance, the
freeflow duration and the traffic-adjusted current duration (falling back to
the base duration when `duration_in_traffic` is absent or `0`). -/
def query_distance_matrix (r : ApiResponse) : Option TrafficData :=
  match r with
  | ApiResponse.malformed => none
  | ApiResponse.body status elem =>
    if status = "OVER_QUERY_LIMIT" then
      none
    else if status = "OK" then
      match elem with
      | none => none
      | some e =>
        if e.status = "OVER_QUERY_LIMIT" then
          none
        else if e.status = "OK" then
          match e.duration, e.distance with
          | some duration, some distance =>
            if duration ≠ 0 ∧ distance ≠ 0 then
              let current_duration :=
                match e.duration_in_traffic with
                | some t => if t ≠ 0 then t else duration
                | none => duration
              some ⟨distance, duration, current_duration⟩
            else
              none
          | _, _ => none
        else
          none
    else
      none

/-- `ScheduledTrafficCollector.should_query_now`, lines 28-39: due when the
region was never queried, otherwise due iff the elapsed seconds divided by
3600 reach the configured interval in hours. -/
def should_query_now (now : ℚ) (last_queried_at : Option ℚ)
    (interval_hours : ℚ) : Bool :=
  match last_queried_at with
  | none => true
  | some t => decide ((now - t) / 3600 ≥ interval_hours)

/-- A row appended to the `observations` list of `collect_traffic_data` and
later bulk-inserted into `traffic_observations`. -/
structure Observation where
  segment_id : Int
  region_id : Int
  observed_at : ℚ
  freeflow_duration_seconds : Int
  current_duration_seconds : Int
deriving DecidableEq, Repr

/-- The single row inserted into `query_log` at the end of
`collect_traffic_data`. -/
structure QueryLogRow where
  region_id : Int
  elements_queried : Nat
  successful_queries : Nat
  failed_queries : Nat
  api_response_time_ms : Int
deriving DecidableEq, Repr

/-- The loop state of `collect_traffic_data` after processing the segment
list: the two accumulated batches and the success/failure counters. -/
structure CollectResult where
  observations : List Observation
  segment_updates : List (Int × Int)
  successful : Nat
  failed : Nat
deriving DecidableEq, Repr

/-- One row of the `road_segments` fetch paired with the API response the
environment produces for this segment's coordinates in this run. -/
structure SegmentRow where
  seg_id : Int
  resp : ApiResponse
deriving DecidableEq, Repr

/-- The `for` loop of `collect_traffic_data`, lines 96-133: each segment is
queried in order; a successful query appends one observation (stamped with
the single `timestamp` captured before the loop) and one
`(distance, seg_id)` update and bumps `successful`, a failed one bumps
`failed`; the loop never aborts. -/
def collectLoop (region_id : Int) (timestamp : ℚ) :
    List SegmentRow → CollectResult
  | [] => ⟨[], [], 0, 0⟩
  | s :: rest =>
    let r := collectLoop region_id timestamp rest
    match query_distance_matrix s.resp with
    | some td =>
      ⟨⟨s.seg_id, region_id, timestamp, td.freeflow_duration,
          td.current_duration⟩ :: r.observations,
        (td.distance, s.seg_id) :: r.segment_updates,
        r.successful + 1, r.failed⟩
    | none => ⟨r.observations, r.segment_updates, r.successful, r.failed + 1⟩

/-- One parameterized SQL statement executed on the connection's cursor. -/
inductive DbWrite where
  | updateSegmentDistance : Int → Int → DbWrite
  | insertObservation : Observation → DbWrite
  | insertQueryLog : QueryLogRow → DbWrite
  | updateConfig : ℚ → ℚ → Int → DbWrite
deriving DecidableEq, Repr

/-- A database interaction: buffer a pending write, or `conn.commit()`. -/
inductive DbEvent where
  | write : DbWrite → DbEvent
  | commit : DbEvent
deriving DecidableEq, Repr

/-- psycopg2 transaction semantics with autocommit off: writes stay pending
until a `commit` makes them durable; pending writes of an interrupted
(uncommitted) suffix are rolled back and never surface. Returns the durable
writes produced by executing the event list from the given pending buffer. -/
def committedWrites : List DbEvent → List DbWrite → List DbWrite
  | [], _ => []
  | DbEvent.write w :: rest, pending => committedWrites rest (pending ++ [w])
  | DbEvent.commit :: rest, pending => pending ++ committedWrites rest []

/-- The write phase of `collect_traffic_data`, lines 138-162: bulk-update the
segment distances, bulk-insert the observations, insert the single query-log
row, then one `conn.commit()`. -/
def collectWrites (region_id : Int) (elements_queried : Nat)
    (elapsed_ms : Int) (res : CollectResult) : List DbWrite :=
  res.segment_updates.map (fun u => DbWrite.updateSegmentDistance u.1 u.2)
    ++ res.observations.map DbWrite.insertObservation
    ++ [DbWrite.insertQueryLog
          ⟨region_id, elements_queried, res.successful, res.failed,
            elapsed_ms⟩]

/-- `ScheduledTrafficCollector.collect_traffic_data`, lines 67-165: fetch the
region's segments, capture one timestamp, run the query loop, emit the three
write groups followed by a single commit, and return the two counters. -/
def collect_traffic_data (region_id : Int) (timestamp : ℚ) (elapsed_ms : Int)
    (segments : List SegmentRow) : List DbEvent × Nat × Nat :=
  let res := collectLoop region_id timestamp segments
  ((collectWrites region_id segments.length elapsed_ms res).map DbEvent.write
      ++ [DbEvent.commit],
    res.successful, res.failed)

/-- The row returned by `get_active_region`, lines 42-65: the active
`collection_config` row joined with its region. -/
structure ConfigRow where
  region_id : Int
  region_name : Option String
  queries_per_day : Int
  interval_hours : ℚ
  last_queried_at : Option ℚ
  segment_count : Nat
deriving DecidableEq, Repr

/-- How `run` terminates: a normal return, or the `ZeroDivisionError` raised
by the success-rate print when `successful + failed = 0`, logged by the
`except` clause and re-raised. -/
inductive Outcome where
  | ok : Outcome
  | zeroDivisionError : Outcome
deriving DecidableEq, Repr

/-- Process exit status once `run` returns to the `__main__` block: a normal
return exits 0, the re-raised exception terminates the interpreter with a
non-zero status. -/
def exitCode : Outcome → Nat
  | Outcome.ok => 0
  | Outcome.zeroDivisionError => 1

/-- The external world of one invocation: the active config row (if any), the
segments of the active region with the API responses this run receives,
`utcnow` at the start of the run (seconds), how long the collection pass
takes (seconds, nonnegative: each segment costs at least the 200 ms sleep),
and the elapsed-API-time figure logged in `query_log`. -/
structure Env where
  active : Option ConfigRow
  segments : List SegmentRow
  t0 : ℚ
  collectDuration : ℚ
  elapsed_ms : Int
deriving DecidableEq, Repr

/-- `ScheduledTrafficCollector.run`, lines 233-301: read the active config
(none ⇒ report and return), evaluate the interval gate at the current time
(not due ⇒ report and return), otherwise collect, then update
`last_queried_at`/`updated_at` to `datetime.utcnow()` taken after the
collection pass and commit, then print the summary whose success-rate
division raises `ZeroDivisionError` when no segment was attempted (the
`except` clause re-raises it). Returns the database event trace and the
outcome. -/
def run (env : Env) : List DbEvent × Outcome :=
  match env.active with
  | none => ([], Outcome.ok)
  | some cfg =>
    if should_query_now env.t0 cfg.last_queried_at cfg.interval_hours then
      let collected :=
        collect_traffic_data cfg.region_id env.t0 env.elapsed_ms env.segments
      let tEnd := env.t0 + env.collectDuration
      let trace := collected.1
        ++ [DbEvent.write (DbWrite.updateConfig tEnd tEnd cfg.region_id),
            DbEvent.commit]
      if collected.2.1 + collected.2.2 = 0 then
        (trace, Outcome.zeroDivisionError)
      else
        (trace, Outcome.ok)
    else
      ([], Outcome.ok)

/-- The query-log rows contained in a trace, in order. -/
def logRowsOf (tr : List DbEvent) : List QueryLogRow :=
  tr.filterMap fun e =>
    match e with
    | DbEvent.write (DbWrite.insertQueryLog q) => some q
    | _ => none

/-- The `collection_config` updates contained in a trace, in order, as
`(last_queried_at, updated_at, region_id)` triples. -/
def configUpdatesOf (tr : List DbEvent) : List (ℚ × ℚ × Int) :=
  tr.filterMap fun e =>
    match e with
    | DbEvent.write (DbWrite.updateConfig a b r) => some (a, b, r)
    | _ => none

/-- The observation rows contained in a trace, in order. -/
def observationsOf (tr : List DbEvent) : List Observation :=
  tr.filterMap fun e =>
    match e with
    | DbEvent.write (DbWrite.insertObservation o) => some o
    | _ => none

/-- The spec's wording of the success condition of `_query_distance_matrix`
(claim C3): both statuses `OK` and the base duration and distance values
present in the response. Written from the spec for comparison with
`query_distance_matrix`. -/
def specPresent_returns_result (r : ApiResponse) : Prop :=
  match r with
  | ApiResponse.malformed => False
  | ApiResponse.body status elem =>
    status = "OK" ∧ ∃ e, elem = some e ∧ e.status = "OK" ∧
      e.duration.isSome = true ∧ e.distance.isSome = true

/-- The amended success condition: both statuses `OK` and the base duration
and distance values present and nonzero (Python truthiness). Written from
the amended spec wording for comparison with `query_distance_matrix`. -/
def specTruthy_returns_result (r : ApiResponse) : Bool :=
  match r with
  | ApiResponse.malformed => false
  | ApiResponse.body status elem =>
    match elem with
    | none => false
    | some e =>
      status = "OK" && e.status = "OK" && truthy e.duration
        && truthy e.distance

/- Helper lemmas about the collection loop and trace projections. -/

theorem collectLoop_counts (region_id : Int) (timestamp : ℚ)
    (xs : List SegmentRow) :
    (collectLoop region_id timestamp xs).successful
        + (collectLoop region_id timestamp xs).failed = xs.length := by
  induction xs with
  | nil => rfl
  | cons s rest ih =>
    simp only [collectLoop]
    cases query_distance_matrix s.resp <;> simp <;> omega

theorem collectLoop_obs_length (region_id : Int) (timestamp : ℚ)
    (xs : List SegmentRow) :
    (collectLoop region_id timestamp xs).observations.length
        = (collectLoop region_id timestamp xs).successful := by
  induction xs with
  | nil => rfl
  | cons s rest ih =>
    simp only [collectLoop]
    cases query_distance_matrix s.resp <;> simp [ih]

theorem collectLoop_upd_length (region_id : Int) (timestamp : ℚ)
    (xs : List SegmentRow) :
    (collectLoop region_id timestamp xs).segment_updates.length
        = (collectLoop region_id timestamp xs).successful := by
  induction xs with
  | nil => rfl
  | cons s rest ih =>
    simp only [collectLoop]
    cases query_distance_matrix s.resp <;> simp [ih]

theorem collectLoop_obs_timestamp (region_id : Int) (timestamp : ℚ)
    (xs : List SegmentRow) (o : Observation)
    (ho : o ∈ (collectLoop region_id timestamp xs).observations) :
    o.observed_at = timestamp := by
  induction xs with
  | nil => cases ho
  | cons s rest ih =>
    simp only [collectLoop] at ho
    cases hq : query_distance_matrix s.resp <;> simp [hq] at ho
    · exact ih ho
    · rcases ho with ho | ho
      · rw [ho]
      · exact ih ho

theorem filterMap_const_none (α β : Type) (l : List α) :
    l.filterMap (fun _ => (none : Option β)) = [] := by
  induction l with
  | nil => rfl
  | cons a rest ih => simp [List.filterMap, ih]

theorem logRowsOf_collect (region_id : Int) (timestamp : ℚ)
    (elapsed_ms : Int) (segments : List SegmentRow) :
    logRowsOf (collect_traffic_data region_id timestamp elapsed_ms
        segments).1 =
      [⟨region_id, segments.length,
        (collectLoop region_id timestamp segments).successful,
        (collectLoop region_id timestamp segments).failed, elapsed_ms⟩] := by
  simp only [collect_traffic_data, collectWrites, logRowsOf, List.map_append,
    List.filterMap_append, List.filterMap_map]
  simp [Function.comp_def, filterMap_const_none]

theorem observationsOf_collect (region_id : Int) (timestamp : ℚ)
    (elapsed_ms : Int) (segments : List SegmentRow) :
    observationsOf (collect_traffic_data region_id timestamp elapsed_ms
        segments).1 =
      (collectLoop region_id timestamp segments).observations := by
  simp only [collect_traffic_data, collectWrites, observationsOf,
    List.map_append, List.filterMap_append, List.filterMap_map]
  simp [Function.comp_def, filterMap_const_none]

theorem configUpdatesOf_collect (region_id : Int) (timestamp : ℚ)
    (elapsed_ms : Int) (segments : List SegmentRow) :
    configUpdatesOf (collect_traffic_data region_id timestamp elapsed_ms
        segments).1 = [] := by
  simp only [collect_traffic_data, collectWrites, configUpdatesOf,
    List.map_append, List.filterMap_append, List.filterMap_map]
  simp [Function.comp_def, filterMap_const_none]

theorem committedWrites_map_write (ws : List DbWrite)
    (pending : List DbWrite) :
    committedWrites (ws.map DbEvent.write) pending = [] := by
  induction ws generalizing pending with
  | nil => rfl
  | cons w rest ih => simp [committedWrites, ih]

theorem committedWrites_map_write_commit (ws : List DbWrite)
    (pending : List DbWrite) :
    committedWrites (ws.map DbEvent.write ++ [DbEvent.commit]) pending
      = pending ++ ws := by
  induction ws generalizing pending with
  | nil => simp [committedWrites]
  | cons w rest ih => simp [committedWrites, ih]

theorem committedWrites_take_of_le (ws : List DbWrite) (k : Nat)
    (hk : k ≤ ws.length) (pending : List DbWrite) :
    committedWrites ((ws.map DbEvent.write ++ [DbEvent.commit]).take k)
        pending = [] := by
  have h1 : (ws.map DbEvent.write ++ [DbEvent.commit]).take k
      = (ws.map DbEvent.write).take k := by
    rw [List.take_append_of_le_length]
    simpa using hk
  rw [h1, ← List.map_take]
  exact committedWrites_map_write _ _

/-! ## Claim theorems -/

/-- C1: `should_query_now(last_queried_at, interval_hours)` returns true iff
`last_queried_at` is `None` or the elapsed hours `(now - last)/3600` are at
least `interval_hours`; when the elapsed hours exactly equal the interval it
returns true, and a `None` last-run is due regardless of the interval. -/
theorem should_query_now_iff (now t interval_hours : ℚ) :
    should_query_now now none interval_hours = true ∧
    (should_query_now now (some t) interval_hours = true ↔
      (now - t) / 3600 ≥ interval_hours) ∧
    should_query_now (t + 3600 * interval_hours) (some t) interval_hours
      = true := by
  refine ⟨rfl, by simp [should_query_now], ?_⟩
  have h : (t + 3600 * interval_hours - t) / 3600 = interval_hours := by
    ring
  simp [should_query_now, h]

/-- C3 counterexample: the claim says a result is returned whenever both
statuses are `OK` and the duration and distance values are *present*; but at
a response with `duration.value = 0` present and `distance.value = 5000` the
code's truthiness guard `if duration and distance:` fails and `None` is
returned. -/
theorem query_present_not_sufficient :
    specPresent_returns_result
        (ApiResponse.body "OK" (some ⟨"OK", some 0, none, some 5000⟩)) ∧
    query_distance_matrix
        (ApiResponse.body "OK" (some ⟨"OK", some 0, none, some 5000⟩))
      = none := by
  constructor
  · exact ⟨rfl, ⟨"OK", some 0, none, some 5000⟩, rfl, rfl, rfl, rfl⟩
  · rfl

/-- C3 (amended): `_query_distance_matrix` returns a result iff the top-level
status is `OK`, the first element is present with status `OK`, and both the
base duration value and the distance value are present *and nonzero* (Python
truthiness); every other parsed body, and every network error, timeout or
malformed body (whose exception is caught, never propagated — the function is
total and returns `None` there), yields no result. -/
theorem query_returns_result_iff (r : ApiResponse) :
    (query_distance_matrix r).isSome = specTruthy_returns_result r := by
  cases r with
  | malformed => rfl
  | body status elem =>
    cases elem with
    | none =>
      simp only [query_distance_matrix, specTruthy_returns_result]
      split_ifs <;> rfl
    | some e =>
      obtain ⟨es, d, dit, dist⟩ := e
      simp only [query_distance_matrix, specTruthy_returns_result, truthy]
      cases d with
      | none => split_ifs <;> simp
      | some dv =>
        cases dist with
        | none => split_ifs <;> simp
        | some sv =>
          split_ifs <;> simp_all
          try by_cases hd : dv = 0 <;> by_cases hs : sv = 0 <;> simp_all

/-- C4 counterexample: the claim says the derived current duration equals the
`duration_in_traffic` value whenever that field is present; but with
`duration=600`, `distance=5000` and `duration_in_traffic` present with value
`0`, the query succeeds and the current duration is `600`, not the present
value `0` (Python truthiness makes `0` fall back to the base duration). -/
theorem current_duration_present_zero :
    (⟨"OK", some 600, some 0, some 5000⟩ : Elem).duration_in_traffic
        = some 0 ∧
    query_distance_matrix (ApiResponse.body "OK"
        (some ⟨"OK", some 600, some 0, some 5000⟩))
      = some ⟨5000, 600, 600⟩ ∧
    (600 : Int) ≠ 0 := by
  refine ⟨rfl, rfl, by decide⟩

/-- C4 (amended): for every successful element response, the current duration
equals the `duration_in_traffic` value when that value is present and nonzero
(truthy), and falls back to the base duration (the returned freeflow
duration, which equals `duration.value`) when `duration_in_traffic` is absent
or zero; e.g. `duration=600` with no `duration_in_traffic` gives current
duration 600, and `duration_in_traffic=900` with `duration=600` gives 900. -/
theorem current_duration_of_success (e : Elem) (td : TrafficData)
    (h : query_distance_matrix (ApiResponse.body "OK" (some e)) = some td) :
    e.duration = some td.freeflow_duration ∧
    (truthy e.duration_in_traffic = true →
      e.duration_in_traffic = some td.current_duration) ∧
    (truthy e.duration_in_traffic = false →
      td.current_duration = td.freeflow_duration) := by
  obtain ⟨es, d, dit, dist⟩ := e
  simp only [query_distance_matrix] at h
  split_ifs at h with h1 h2 h3
  cases d with
  | none =>
    cases dist <;> dsimp only at h <;> exact Option.noConfusion h
  | some dv =>
    cases dist with
    | none => dsimp only at h; exact Option.noConfusion h
    | some sv =>
      dsimp only at h
      split_ifs at h with h5
      injection h with h6
      subst h6
      cases dit with
      | none => simp [truthy]
      | some tv =>
        by_cases ht : tv = 0 <;> simp [truthy, ht]

/-- C2: over any segment list of length `N`, exactly one query-log row is
inserted and it records `elements_queried = N` and the two counters with
`successful + failed = N` (every attempted segment is counted exactly once as
success or failure), and the number of observation rows inserted equals the
number of segment-distance updates equals `successful`. -/
theorem collect_counts (region_id : Int) (timestamp : ℚ) (elapsed_ms : Int)
    (segments : List SegmentRow) :
    (collectLoop region_id timestamp segments).successful
        + (collectLoop region_id timestamp segments).failed
      = segments.length ∧
    logRowsOf (collect_traffic_data region_id timestamp elapsed_ms
        segments).1 =
      [⟨region_id, segments.length,
        (collectLoop region_id timestamp segments).successful,
        (collectLoop region_id timestamp segments).failed, elapsed_ms⟩] ∧
    (observationsOf (collect_traffic_data region_id timestamp elapsed_ms
        segments).1).length
      = (collectLoop region_id timestamp segments).successful ∧
    (collectLoop region_id timestamp segments).segment_updates.length
      = (collectLoop region_id timestamp segments).successful := by
  refine ⟨collectLoop_counts region_id timestamp segments,
    logRowsOf_collect region_id timestamp elapsed_ms segments, ?_,
    collectLoop_upd_length region_id timestamp segments⟩
  rw [observationsOf_collect]
  exact collectLoop_obs_length region_id timestamp segments

theorem collectLoop_append (region_id : Int) (timestamp : ℚ)
    (xs ys : List SegmentRow) :
    collectLoop region_id timestamp (xs ++ ys) =
      ⟨(collectLoop region_id timestamp xs).observations
          ++ (collectLoop region_id timestamp ys).observations,
        (collectLoop region_id timestamp xs).segment_updates
          ++ (collectLoop region_id timestamp ys).segment_updates,
        (collectLoop region_id timestamp xs).successful
          + (collectLoop region_id timestamp ys).successful,
        (collectLoop region_id timestamp xs).failed
          + (collectLoop region_id timestamp ys).failed⟩ := by
  induction xs with
  | nil => simp [collectLoop]
  | cons s rest ih =>
    simp only [List.cons_append, collectLoop, List.append_eq, ih]
    cases query_distance_matrix s.resp <;> simp <;> omega

/-- C5: a response whose top-level status is `OVER_QUERY_LIMIT`, or whose
top-level status is `OK` with element status `OVER_QUERY_LIMIT`, makes
`_query_distance_matrix` return no result; the surrounding loop counts that
segment as exactly one extra failure and still processes every segment before
and after it (its observations and updates are exactly those of the other
segments): no backoff, no abort. -/
theorem over_query_limit_fails_and_continues (region_id : Int)
    (timestamp : ℚ) (pre post : List SegmentRow) (s : SegmentRow)
    (h : (∃ e, s.resp = ApiResponse.body "OVER_QUERY_LIMIT" e) ∨
      (∃ e, s.resp = ApiResponse.body "OK" (some e) ∧
        e.status = "OVER_QUERY_LIMIT")) :
    query_distance_matrix s.resp = none ∧
    collectLoop region_id timestamp (pre ++ s :: post) =
      ⟨(collectLoop region_id timestamp pre).observations
          ++ (collectLoop region_id timestamp post).observations,
        (collectLoop region_id timestamp pre).segment_updates
          ++ (collectLoop region_id timestamp post).segment_updates,
        (collectLoop region_id timestamp pre).successful
          + (collectLoop region_id timestamp post).successful,
        (collectLoop region_id timestamp pre).failed
          + (collectLoop region_id timestamp post).failed + 1⟩ := by
  have hq : query_distance_matrix s.resp = none := by
    rcases h with ⟨e, he⟩ | ⟨e, he, hs⟩
    · rw [he]; rfl
    · rw [he]; simp [query_distance_matrix, hs]
  refine ⟨hq, ?_⟩
  rw [collectLoop_append]
  simp only [collectLoop, hq]
  simp
  omega

theorem count_commit_map_write (ws : List DbWrite) :
    (ws.map DbEvent.write).count DbEvent.commit = 0 := by
  induction ws with
  | nil => rfl
  | cons w rest ih => simp [List.count_cons, ih]

/-- C6: the write phase of a run is atomic: the event trace of
`collect_traffic_data` is exactly the three write groups (segment-distance
updates, observation inserts, the one log insert) followed by a single
`commit`, which is the only commit; no prefix stopping before that commit
makes any write durable, and the full trace makes all of them durable at
once. -/
theorem collect_write_phase_atomic (region_id : Int) (timestamp : ℚ)
    (elapsed_ms : Int) (segments : List SegmentRow) :
    (collect_traffic_data region_id timestamp elapsed_ms segments).1 =
      (collectWrites region_id segments.length elapsed_ms
          (collectLoop region_id timestamp segments)).map DbEvent.write
        ++ [DbEvent.commit] ∧
    (collect_traffic_data region_id timestamp elapsed_ms
        segments).1.count DbEvent.commit = 1 ∧
    committedWrites
        (collect_traffic_data region_id timestamp elapsed_ms segments).1 []
      = collectWrites region_id segments.length elapsed_ms
          (collectLoop region_id timestamp segments) ∧
    ∀ k, k < (collect_traffic_data region_id timestamp elapsed_ms
        segments).1.length →
      committedWrites ((collect_traffic_data region_id timestamp elapsed_ms
          segments).1.take k) [] = [] := by
  refine ⟨rfl, ?_, ?_, ?_⟩
  · simp [collect_traffic_data, count_commit_map_write]
  · simpa using committedWrites_map_write_commit
      (collectWrites region_id segments.length elapsed_ms
        (collectLoop region_id timestamp segments)) []
  · intro k hk
    simp only [collect_traffic_data] at hk ⊢
    apply committedWrites_take_of_le
    simp only [List.length_append, List.length_map, List.length_cons,
      List.length_nil] at hk
    omega

theorem logRowsOf_append (xs ys : List DbEvent) :
    logRowsOf (xs ++ ys) = logRowsOf xs ++ logRowsOf ys := by
  simp [logRowsOf, List.filterMap_append]

theorem observationsOf_append (xs ys : List DbEvent) :
    observationsOf (xs ++ ys) = observationsOf xs ++ observationsOf ys := by
  simp [observationsOf, List.filterMap_append]

theorem configUpdatesOf_append (xs ys : List DbEvent) :
    configUpdatesOf (xs ++ ys)
      = configUpdatesOf xs ++ configUpdatesOf ys := by
  simp [configUpdatesOf, List.filterMap_append]

theorem run_trace_of_due (env : Env) (cfg : ConfigRow)
    (hA : env.active = some cfg)
    (hG : should_query_now env.t0 cfg.last_queried_at cfg.interval_hours
      = true) :
    (run env).1 =
      (collect_traffic_data cfg.region_id env.t0 env.elapsed_ms
          env.segments).1
        ++ [DbEvent.write (DbWrite.updateConfig
              (env.t0 + env.collectDuration) (env.t0 + env.collectDuration)
              cfg.region_id),
            DbEvent.commit] := by
  simp only [run, hA, hG, if_true]
  split_ifs <;> rfl

/-- A sample element answering with `duration=600`, no `duration_in_traffic`,
`distance=5000`. -/
def okElem : Elem := ⟨"OK", some 600, none, some 5000⟩

/-- A sample fully successful API response. -/
def okResp : ApiResponse := ApiResponse.body "OK" (some okElem)

/-- A sample quota-exhausted response (top-level `OVER_QUERY_LIMIT`). -/
def oqlResp : ApiResponse := ApiResponse.body "OVER_QUERY_LIMIT" none

/-- A sample never-queried active config row for region 1. -/
def c7cfg : ConfigRow := ⟨1, none, 100, 1, none, 1⟩

/-- A sample run environment: region 1 active and due, one segment answering
successfully, run starting at time 0 with a 5-second collection pass. -/
def c7env : Env := ⟨some c7cfg, [⟨5, okResp⟩], 0, 5, 5000⟩

/-- C7 counterexample: the claim says the `last_queried_at` written on
success is the run's start-adjacent current time, not a time after the full
collection pass; but in a run starting at `t0 = 0` whose collection pass
takes 5 seconds, the single `collection_config` update writes
`last_queried_at = updated_at = 5` (`datetime.utcnow()` evaluated after
`collect_traffic_data` returns), which differs from the start time 0. -/
theorem last_queried_not_start_adjacent :
    configUpdatesOf (run c7env).1 = [(5, 5, 1)] ∧
    c7env.t0 = 0 ∧ (5 : ℚ) ≠ 0 := by
  have htr := run_trace_of_due c7env c7cfg rfl rfl
  refine ⟨?_, rfl, by norm_num⟩
  rw [htr, configUpdatesOf_append, configUpdatesOf_collect]
  simp only [configUpdatesOf, List.filterMap_cons, List.filterMap_nil,
    List.nil_append]
  norm_num [c7env, c7cfg]

/-- C7 (amended): on a run that reaches collection, the orchestrator appends
exactly one `collection_config` update writing
`last_queried_at = updated_at = t0 + collectDuration` — the current time
taken *after* the collection pass completes — followed by a commit, and this
is the only config update of the run. -/
theorem run_updates_config_after_pass (env : Env) (cfg : ConfigRow)
    (hA : env.active = some cfg)
    (hG : should_query_now env.t0 cfg.last_queried_at cfg.interval_hours
      = true) :
    (run env).1 =
      (collect_traffic_data cfg.region_id env.t0 env.elapsed_ms
          env.segments).1
        ++ [DbEvent.write (DbWrite.updateConfig
              (env.t0 + env.collectDuration) (env.t0 + env.collectDuration)
              cfg.region_id),
            DbEvent.commit] ∧
    configUpdatesOf (run env).1 =
      [(env.t0 + env.collectDuration, env.t0 + env.collectDuration,
        cfg.region_id)] := by
  have htr := run_trace_of_due env cfg hA hG
  refine ⟨htr, ?_⟩
  rw [htr, configUpdatesOf_append, configUpdatesOf_collect]
  rfl

/-- C7 witness: the amended statement instantiated at the sample due
environment. -/
theorem run_updates_config_after_pass_witness :
    (run c7env).1 =
      (collect_traffic_data c7cfg.region_id c7env.t0 c7env.elapsed_ms
          c7env.segments).1
        ++ [DbEvent.write (DbWrite.updateConfig
              (c7env.t0 + c7env.collectDuration)
              (c7env.t0 + c7env.collectDuration) c7cfg.region_id),
            DbEvent.commit] ∧
    configUpdatesOf (run c7env).1 =
      [(c7env.t0 + c7env.collectDuration, c7env.t0 + c7env.collectDuration,
        c7cfg.region_id)] :=
  run_updates_config_after_pass c7env c7cfg rfl rfl

/-- C8: within a single run, every observation row inserted carries the same
`observed_at`: the one timestamp captured at the start of segment processing
(the run's start time), not a per-segment time. -/
theorem observations_share_timestamp (env : Env) (cfg : ConfigRow)
    (hA : env.active = some cfg)
    (hG : should_query_now env.t0 cfg.last_queried_at cfg.interval_hours
      = true)
    (o : Observation) (ho : o ∈ observationsOf (run env).1) :
    o.observed_at = env.t0 := by
  rw [run_trace_of_due env cfg hA hG, observationsOf_append,
    observationsOf_collect] at ho
  simp only [observationsOf, List.filterMap_cons, List.filterMap_nil,
    List.append_nil] at ho
  exact collectLoop_obs_timestamp cfg.region_id env.t0 env.segments o ho

/-- C8 witness: the observation written by the sample run carries the run's
start time 0. -/
theorem observations_share_timestamp_witness :
    (Observation.mk 5 1 0 600 600).observed_at = c7env.t0 :=
  observations_share_timestamp c7env c7cfg rfl rfl ⟨5, 1, 0, 600, 600⟩
    (by decide)

/-- C9: on both skip paths — no active region, or the interval gate reports
not due — the run performs no database interaction at all (empty trace, so
nothing is committed to any table) and returns normally, exiting with
status 0. -/
theorem skip_paths_no_writes (env : Env)
    (h : env.active = none ∨ ∃ cfg, env.active = some cfg ∧
      should_query_now env.t0 cfg.last_queried_at cfg.interval_hours
        = false) :
    (run env).1 = [] ∧ committedWrites (run env).1 [] = [] ∧
    exitCode (run env).2 = 0 := by
  rcases h with h | ⟨cfg, hA, hG⟩
  · simp [run, h, exitCode, committedWrites]
  · simp [run, hA, hG, exitCode, committedWrites]

/-- A sample environment with no active region configured. -/
def c9env : Env := ⟨none, [], 0, 0, 0⟩

/-- C9 witness: the no-active-region skip path instantiated. -/
theorem skip_paths_no_writes_witness :
    (run c9env).1 = [] ∧ committedWrites (run c9env).1 [] = [] ∧
    exitCode (run c9env).2 = 0 :=
  skip_paths_no_writes c9env (Or.inl rfl)

/-- C10: when the active region is due but has zero road segments, the run
still commits the (empty) collection — the query-log row with
`successful = failed = 0` — and commits the `last_queried_at` update, and
then terminates with the `ZeroDivisionError` raised by the
`successful/(successful+failed)` success-rate print and re-raised by the
`except` clause, so the process exits non-zero even though both commits
succeeded. -/
theorem zero_segments_zero_division (env : Env) (cfg : ConfigRow)
    (hA : env.active = some cfg)
    (hG : should_query_now env.t0 cfg.last_queried_at cfg.interval_hours
      = true)
    (hS : env.segments = []) :
    (run env).2 = Outcome.zeroDivisionError ∧
    exitCode (run env).2 = 1 ∧
    committedWrites (run env).1 [] =
      [DbWrite.insertQueryLog ⟨cfg.region_id, 0, 0, 0, env.elapsed_ms⟩,
        DbWrite.updateConfig (env.t0 + env.collectDuration)
          (env.t0 + env.collectDuration) cfg.region_id] := by
  simp [run, hA, hG, hS, collect_traffic_data, collectLoop, collectWrites,
    committedWrites, exitCode]

/-- A sample never-queried active config row for region 2 with no
segments. -/
def c10cfg : ConfigRow := ⟨2, none, 100, 1, none, 0⟩

/-- A sample due environment whose active region has zero segments. -/
def c10env : Env := ⟨some c10cfg, [], 3, 2, 9⟩

/-- C10 witness: the zero-segments run instantiated. -/
theorem zero_segments_zero_division_witness :
    (run c10env).2 = Outcome.zeroDivisionError ∧
    exitCode (run c10env).2 = 1 ∧
    committedWrites (run c10env).1 [] =
      [DbWrite.insertQueryLog ⟨c10cfg.region_id, 0, 0, 0, c10env.elapsed_ms⟩,
        DbWrite.updateConfig (c10env.t0 + c10env.collectDuration)
          (c10env.t0 + c10env.collectDuration) c10cfg.region_id] :=
  zero_segments_zero_division c10env c10cfg rfl rfl rfl

/-- C4 witness: the amended fallback statement instantiated at the sample
successful response with `duration=600`, no `duration_in_traffic`,
`distance=5000`: the current duration is the freeflow duration 600. -/
theorem current_duration_of_success_witness :
    okElem.duration = some (TrafficData.mk 5000 600 600).freeflow_duration ∧
    (truthy okElem.duration_in_traffic = true →
      okElem.duration_in_traffic
        = some (TrafficData.mk 5000 600 600).current_duration) ∧
    (truthy okElem.duration_in_traffic = false →
      (TrafficData.mk 5000 600 600).current_duration
        = (TrafficData.mk 5000 600 600).freeflow_duration) :=
  current_duration_of_success okElem ⟨5000, 600, 600⟩ (by decide)

/-- C5 witness: an `OVER_QUERY_LIMIT` response between two successful
segments is counted as the one extra failure while both neighbours are still
processed. -/
theorem over_query_limit_witness :
    query_distance_matrix (SegmentRow.mk 2 oqlResp).resp = none ∧
    collectLoop 7 0 ([SegmentRow.mk 1 okResp]
        ++ SegmentRow.mk 2 oqlResp :: [SegmentRow.mk 3 okResp]) =
      ⟨(collectLoop 7 0 [SegmentRow.mk 1 okResp]).observations
          ++ (collectLoop 7 0 [SegmentRow.mk 3 okResp]).observations,
        (collectLoop 7 0 [SegmentRow.mk 1 okResp]).segment_updates
          ++ (collectLoop 7 0 [SegmentRow.mk 3 okResp]).segment_updates,
        (collectLoop 7 0 [SegmentRow.mk 1 okResp]).successful
          + (collectLoop 7 0 [SegmentRow.mk 3 okResp]).successful,
        (collectLoop 7 0 [SegmentRow.mk 1 okResp]).failed
          + (collectLoop 7 0 [SegmentRow.mk 3 okResp]).failed + 1⟩ :=
  over_query_limit_fails_and_continues 7 0 [SegmentRow.mk 1 okResp]
    [SegmentRow.mk 3 okResp] (SegmentRow.mk 2 oqlResp) (Or.inl ⟨none, rfl⟩)

/-- C6 witness: in the concrete one-segment run, no strict prefix of the
write-phase trace commits anything. -/
theorem collect_write_phase_atomic_witness :
    committedWrites
        ((collect_traffic_data 7 0 123 [SegmentRow.mk 1 okResp]).1.take 1) []
      = [] :=
  (collect_write_phase_atomic 7 0 123 [SegmentRow.mk 1 okResp]).2.2.2 1
    (by decide)
